import Mathlib

/-
  Verification of the Accessibility-Analyzer backend
  (src/backend/services/accessibilityAnalyzer.js and
   src/backend/services/aiSuggestions.js).

  The JavaScript code is shallowly embedded: each JS function relevant to
  the claims is translated into a Lean definition of the same name.
  JS numbers used as counters are Nat; scores that may go negative are Int;
  the words-per-sentence average is Rat.  A JS attribute that may be absent
  is Option String, and JS truthiness on strings ("" is falsy) is modelled
  by `truthy`.  Exceptions are modelled with Except.
-/

/-- Severity of an issue: the JS `type` field of an issue object,
drawn from the closed set of strings `error` / `warning` / `info`. -/
inductive Severity
  | error
  | warning
  | info
deriving DecidableEq, Repr

/-- An accessibility issue as pushed by the checks.  The constant metadata
fields (`element`, `location`, `impact`, `solution`, `wcag`) carried by the
JS objects play no role in any claim and are omitted; `severity` is the JS
`type` field. -/
structure Issue where
  severity : Severity
  rule : String
  message : String := ""
deriving DecidableEq, Repr

/-- Result of `checkImages` (accessibilityAnalyzer.js, lines 837-841). -/
structure ImagesResult where
  totalImages : Nat
  issues : List Issue
  passed : Nat
deriving DecidableEq, Repr

/-- Result of `checkHeadings` (lines 897-902). -/
structure HeadingsResult where
  totalHeadings : Nat
  hierarchy : List Nat
  issues : List Issue
  hasH1 : Bool
deriving DecidableEq, Repr

/-- Result of `checkForms` (lines 953-957). -/
structure FormsResult where
  totalInputs : Nat
  issues : List Issue
  passed : Nat
deriving DecidableEq, Repr

/-- Result of `checkLinks` (lines 1003-1007). -/
structure LinksResult where
  totalLinks : Nat
  issues : List Issue
  passed : Nat
deriving DecidableEq, Repr

/-- Result of `checkColors`, `checkKeyboardAccess` and `checkAria`, which
all return `{ issues, checked }`. -/
structure CheckedResult where
  issues : List Issue
  checked : Bool
deriving DecidableEq, Repr

/-- Result of `checkSemanticStructure` (lines 1148-1154). -/
structure SemanticResult where
  hasMain : Bool
  hasNav : Bool
  hasHeader : Bool
  hasFooter : Bool
  issues : List Issue
deriving DecidableEq, Repr

/-- The `results.checks` object of `analyzeUrl`, with its keys in insertion
order: images, headings, forms, links, colors, keyboard, aria, semantic. -/
structure Checks where
  images : ImagesResult
  headings : HeadingsResult
  forms : FormsResult
  links : LinksResult
  colors : CheckedResult
  keyboard : CheckedResult
  aria : CheckedResult
  semantic : SemanticResult
deriving DecidableEq, Repr

/-- `Object.values(results.checks)` in insertion order, keeping for each
check its issue list and its `passed` counter when the JS object defines
one (only images, forms and links do). -/
def Checks.asList (c : Checks) : List (List Issue × Option Nat) :=
  [ (c.images.issues, some c.images.passed),
    (c.headings.issues, none),
    (c.forms.issues, some c.forms.passed),
    (c.links.issues, some c.links.passed),
    (c.colors.issues, none),
    (c.keyboard.issues, none),
    (c.aria.issues, none),
    (c.semantic.issues, none) ]

/-- One per-category disability analysis record (`analyzeDisabilityImpacts`
builds four of these).  The constant `impact` / `name` / `description`
strings are omitted. -/
structure DisabilityAnalysis where
  issues : List Issue
  score : Int
  recommendations : List String
deriving DecidableEq, Repr

/-- The `results.disabilityAnalysis` object, keys in insertion order:
visual, auditory, motor, cognitive. -/
structure DisabilityAnalysisSet where
  visual : DisabilityAnalysis
  auditory : DisabilityAnalysis
  motor : DisabilityAnalysis
  cognitive : DisabilityAnalysis
deriving DecidableEq, Repr

/-- `Object.values(results.disabilityAnalysis)` in insertion order. -/
def DisabilityAnalysisSet.asList (d : DisabilityAnalysisSet) : List DisabilityAnalysis :=
  [d.visual, d.auditory, d.motor, d.cognitive]

/-- The `results.summary` object written by `calculateSummary`. -/
structure Summary where
  totalIssues : Nat
  criticalIssues : Nat
  warningIssues : Nat
  passedChecks : Nat
  wcagLevel : String
  overallScore : Int
deriving DecidableEq, Repr

/-- Number of issues of a given severity in a list
(`issues.filter(i => i.type === s).length`). -/
def countSeverity (s : Severity) (issues : List Issue) : Nat :=
  issues.countP (fun i => i.severity == s)

/-- Mutable accumulator of `calculateSummary`: the four local counters
plus the `results.issues` array being filled. -/
structure SummaryAcc where
  totalIssues : Nat
  criticalIssues : Nat
  warningIssues : Nat
  passedChecks : Nat
  issuesAcc : List Issue
deriving Repr

/-- One iteration of the `Object.values(results.checks).forEach` loop in
`calculateSummary` (lines 1174-1184): the issue array of a check is always
present, so the `if (check.issues)` guard is always taken; `check.passed`
is added only when the check defines it. -/
def summaryCheckStep (acc : SummaryAcc) (entry : List Issue × Option Nat) : SummaryAcc :=
  { totalIssues := acc.totalIssues + entry.1.length,
    criticalIssues := acc.criticalIssues + countSeverity .error entry.1,
    warningIssues := acc.warningIssues + countSeverity .warning entry.1,
    passedChecks :=
      match entry.2 with
      | some p => acc.passedChecks + p
      | none => acc.passedChecks,
    issuesAcc := acc.issuesAcc ++ entry.1 }

/-- One iteration of the inner `analysis.issues.forEach` loop in the
disability part of `calculateSummary` (lines 1190-1194). -/
def summaryIssueStep (acc : SummaryAcc) (i : Issue) : SummaryAcc :=
  { acc with
    criticalIssues :=
      if i.severity == .error then acc.criticalIssues + 1 else acc.criticalIssues,
    warningIssues :=
      if i.severity == .error then acc.warningIssues
      else if i.severity == .warning then acc.warningIssues + 1
      else acc.warningIssues,
    totalIssues := acc.totalIssues + 1 }

/-- One iteration of the `Object.values(results.disabilityAnalysis).forEach`
loop (lines 1188-1197): count each issue, then push the analysis issues. -/
def summaryAnalysisStep (acc : SummaryAcc) (a : DisabilityAnalysis) : SummaryAcc :=
  { a.issues.foldl summaryIssueStep acc with issuesAcc := acc.issuesAcc ++ a.issues }

/-- `calculateSummary` (accessibilityAnalyzer.js, lines 1166-1222), as the
pair of the computed summary and the flattened `results.issues` array it
pushes into.  The surrounding try/catch cannot fire on well-typed inputs
and is not modelled. -/
def calculateSummary (checks : Checks) (dis : DisabilityAnalysisSet) :
    Summary × List Issue :=
  let acc0 : SummaryAcc := ⟨0, 0, 0, 0, []⟩
  let acc1 := checks.asList.foldl summaryCheckStep acc0
  let acc2 := dis.asList.foldl summaryAnalysisStep acc1
  let overallScore : Int :=
    max 0 (100 - ((acc2.criticalIssues : Int) * 10 + (acc2.warningIssues : Int) * 5))
  (⟨acc2.totalIssues, acc2.criticalIssues, acc2.warningIssues, acc2.passedChecks,
    if acc2.criticalIssues = 0 then "AA" else "Non-compliant",
    overallScore⟩,
   acc2.issuesAcc)

/-- Specification-side view: all issues of the report, checks first in
fixed check order, then disability categories in fixed category order. -/
def allIssues (checks : Checks) (dis : DisabilityAnalysisSet) : List Issue :=
  (checks.asList.map Prod.fst).flatten ++ (dis.asList.map (·.issues)).flatten

lemma countSeverity_append (s : Severity) (a b : List Issue) :
    countSeverity s (a ++ b) = countSeverity s a + countSeverity s b := by
  simp [countSeverity, List.countP_append]

lemma summaryIssueStep_foldl (issues : List Issue) (acc : SummaryAcc) :
    (issues.foldl summaryIssueStep acc).totalIssues
        = acc.totalIssues + issues.length
    ∧ (issues.foldl summaryIssueStep acc).criticalIssues
        = acc.criticalIssues + countSeverity .error issues
    ∧ (issues.foldl summaryIssueStep acc).warningIssues
        = acc.warningIssues + countSeverity .warning issues
    ∧ (issues.foldl summaryIssueStep acc).passedChecks = acc.passedChecks
    ∧ (issues.foldl summaryIssueStep acc).issuesAcc = acc.issuesAcc := by
  induction issues generalizing acc with
  | nil => simp [countSeverity]
  | cons i rest ih =>
    obtain ⟨h1, h2, h3, h4, h5⟩ := ih (summaryIssueStep acc i)
    simp only [List.foldl_cons, h1, h2, h3, h4, h5]
    refine ⟨?_, ?_, ?_, ?_, ?_⟩ <;>
      cases hs : i.severity <;>
      simp [summaryIssueStep, countSeverity, List.countP_cons, hs] <;> omega

lemma summaryAnalysisStep_foldl (as : List DisabilityAnalysis) (acc : SummaryAcc) :
    (as.foldl summaryAnalysisStep acc).totalIssues
        = acc.totalIssues + ((as.map (·.issues)).flatten).length
    ∧ (as.foldl summaryAnalysisStep acc).criticalIssues
        = acc.criticalIssues + countSeverity .error ((as.map (·.issues)).flatten)
    ∧ (as.foldl summaryAnalysisStep acc).warningIssues
        = acc.warningIssues + countSeverity .warning ((as.map (·.issues)).flatten)
    ∧ (as.foldl summaryAnalysisStep acc).passedChecks = acc.passedChecks
    ∧ (as.foldl summaryAnalysisStep acc).issuesAcc
        = acc.issuesAcc ++ (as.map (·.issues)).flatten := by
  induction as generalizing acc with
  | nil => simp [countSeverity]
  | cons a rest ih =>
    obtain ⟨h1, h2, h3, h4, h5⟩ := ih (summaryAnalysisStep acc a)
    obtain ⟨g1, g2, g3, g4, g5⟩ := summaryIssueStep_foldl a.issues acc
    simp only [List.foldl_cons, h1, h2, h3, h4, h5]
    refine ⟨?_, ?_, ?_, ?_, ?_⟩ <;>
      simp [summaryAnalysisStep, g1, g2, g3, g4, g5, countSeverity_append] <;> omega

lemma summaryCheckStep_foldl (entries : List (List Issue × Option Nat)) (acc : SummaryAcc) :
    (entries.foldl summaryCheckStep acc).totalIssues
        = acc.totalIssues + ((entries.map Prod.fst).flatten).length
    ∧ (entries.foldl summaryCheckStep acc).criticalIssues
        = acc.criticalIssues + countSeverity .error ((entries.map Prod.fst).flatten)
    ∧ (entries.foldl summaryCheckStep acc).warningIssues
        = acc.warningIssues + countSeverity .warning ((entries.map Prod.fst).flatten)
    ∧ (entries.foldl summaryCheckStep acc).issuesAcc
        = acc.issuesAcc ++ (entries.map Prod.fst).flatten := by
  induction entries generalizing acc with
  | nil => simp [countSeverity]
  | cons e rest ih =>
    obtain ⟨h1, h2, h3, h4⟩ := ih (summaryCheckStep acc e)
    simp only [List.foldl_cons, h1, h2, h3, h4]
    refine ⟨?_, ?_, ?_, ?_⟩ <;>
      simp [summaryCheckStep, countSeverity_append] <;> omega

/-- Characterization of `calculateSummary`: the counters are exactly the
severity counts over all issues of checks and disability analyses, and the
flattened issue list is pushed in encounter order. -/
lemma calculateSummary_spec (checks : Checks) (dis : DisabilityAnalysisSet) :
    (calculateSummary checks dis).1.totalIssues = (allIssues checks dis).length
    ∧ (calculateSummary checks dis).1.criticalIssues
        = countSeverity .error (allIssues checks dis)
    ∧ (calculateSummary checks dis).1.warningIssues
        = countSeverity .warning (allIssues checks dis)
    ∧ (calculateSummary checks dis).2 = allIssues checks dis
    ∧ (calculateSummary checks dis).1.overallScore
        = max 0 (100 - ((calculateSummary checks dis).1.criticalIssues * 10
            + (calculateSummary checks dis).1.warningIssues * 5 : Int))
    ∧ (calculateSummary checks dis).1.wcagLevel
        = (if (calculateSummary checks dis).1.criticalIssues = 0
           then "AA" else "Non-compliant") := by
  obtain ⟨h1, h2, h3, h4⟩ :=
    summaryCheckStep_foldl checks.asList ⟨0, 0, 0, 0, []⟩
  obtain ⟨g1, g2, g3, g4, g5⟩ :=
    summaryAnalysisStep_foldl dis.asList (checks.asList.foldl summaryCheckStep ⟨0, 0, 0, 0, []⟩)
  simp only [calculateSummary, allIssues, g1, g2, g3, g4, g5, h1, h2, h3, h4]
  refine ⟨by simp, by simp [countSeverity_append], by simp [countSeverity_append],
    by simp, by simp, by simp⟩

/-- JS truthiness for a string attribute: an absent attribute and the
empty string are both falsy. -/
def truthy (o : Option String) : Option String :=
  match o with
  | some s => if s = "" then none else some s
  | none => none

/-- The JS short-circuit `a || b` on two possibly-absent, possibly-empty
strings; the result is none when both are falsy. -/
def jsOrStr (a b : Option String) : Option String :=
  match truthy a with
  | some s => some s
  | none => truthy b


/-- JS `s.includes(pat)`. -/
def strContains (s pat : String) : Bool :=
  decide (pat.toList <:+: s.toList)

/-- JS `s.toLowerCase()`, computed characterwise so that concrete values
reduce by `decide`. -/
def strToLower (s : String) : String :=
  (s.toList.map Char.toLower).asString

/-- JS `s.trim()`: strip whitespace from both ends. -/
def strTrim (s : String) : String :=
  (((s.toList.dropWhile Char.isWhitespace).reverse.dropWhile
      Char.isWhitespace).reverse).asString

/-- Split a string at every character satisfying `p` (the JS regex splits
`[.!?]+` and `\\s+` additionally collapse runs of separators; the callers
below filter out the resulting empty fragments, after which the two
behaviours coincide). -/
def splitOnPred (p : Char → Bool) (s : String) : List String :=
  (s.toList.splitOnP p).map List.asString

/-- The `results.pageInfo` object of `analyzeUrl`. -/
structure PageInfo where
  title : String
  url : String
  hasTitle : Bool
  hasLang : Bool
  hasViewport : Bool
deriving DecidableEq, Repr

/-- The full `results` object returned by `analyzeUrl` on success.  By
construction of the record type, all eight checks and all four disability
categories are always present. -/
structure Results where
  summary : Summary
  issues : List Issue
  pageInfo : PageInfo
  checks : Checks
  disabilityAnalysis : DisabilityAnalysisSet
deriving DecidableEq, Repr

/-- Outcome of evaluating each check body on the loaded page: `.ok` when
the check ran to completion, `.error` when it threw internally (the
`CheckError` case caught by the per-check try/catch in `analyzeUrl`,
lines 251-314). -/
structure CheckOutcomes where
  images : Except String ImagesResult
  headings : Except String HeadingsResult
  forms : Except String FormsResult
  links : Except String LinksResult
  colors : Except String CheckedResult
  keyboard : Except String CheckedResult
  aria : Except String CheckedResult
  semantic : Except String SemanticResult
  disability : Except String DisabilityAnalysisSet

/-- Fallback value in the catch branch for the images check (line 256). -/
def emptyImagesResult : ImagesResult :=
  { issues := [], totalImages := 0, passed := 0 }

/-- Fallback for the headings check (line 263).  The JS fallback object has
no `hierarchy` key; an absent array is modelled as `[]`. -/
def emptyHeadingsResult : HeadingsResult :=
  { issues := [], totalHeadings := 0, hierarchy := [], hasH1 := false }

/-- Fallback for the forms check (line 270). -/
def emptyFormsResult : FormsResult :=
  { issues := [], totalInputs := 0, passed := 0 }

/-- Fallback for the links check (line 277). -/
def emptyLinksResult : LinksResult :=
  { issues := [], totalLinks := 0, passed := 0 }

/-- Fallback for the colors, keyboard and aria checks (lines 284, 291, 298). -/
def emptyCheckedResult : CheckedResult :=
  { issues := [], checked := false }

/-- Fallback for the semantic check (line 305). -/
def emptySemanticResult : SemanticResult :=
  { issues := [], hasMain := false, hasNav := false, hasHeader := false, hasFooter := false }

/-- `getEmptyDisabilityAnalysis` (lines 1157-1164): all four categories
with empty issues, score 0 and no recommendations. -/
def getEmptyDisabilityAnalysis : DisabilityAnalysisSet :=
  ⟨⟨[], 0, []⟩, ⟨[], 0, []⟩, ⟨[], 0, []⟩, ⟨[], 0, []⟩⟩

/-- The per-check `try { ... } catch { fallback }` pattern of `analyzeUrl`:
a throwing check is downgraded to its fallback result. -/
def recoverCheck {α : Type} (r : Except String α) (fallback : α) : α :=
  match r with
  | .ok v => v
  | .error _ => fallback

/-- The `results.checks` object as assembled by `analyzeUrl`
(lines 251-306), substituting the catch-branch fallback for every check
that threw. -/
def assembleChecks (oc : CheckOutcomes) : Checks :=
  { images := recoverCheck oc.images emptyImagesResult,
    headings := recoverCheck oc.headings emptyHeadingsResult,
    forms := recoverCheck oc.forms emptyFormsResult,
    links := recoverCheck oc.links emptyLinksResult,
    colors := recoverCheck oc.colors emptyCheckedResult,
    keyboard := recoverCheck oc.keyboard emptyCheckedResult,
    aria := recoverCheck oc.aria emptyCheckedResult,
    semantic := recoverCheck oc.semantic emptySemanticResult }

/-- The tail of `analyzeUrl` after the page is loaded and parsed
(lines 217-319): run all checks with per-check recovery, run the
disability analysis with its recovery (line 313), then `calculateSummary`,
and return the completed results object. -/
def analyzeLoaded (info : PageInfo) (oc : CheckOutcomes) : Results :=
  let checks := assembleChecks oc
  let dis := recoverCheck oc.disability getEmptyDisabilityAnalysis
  let s := calculateSummary checks dis
  { summary := s.1, issues := s.2, pageInfo := info,
    checks := checks, disabilityAnalysis := dis }

/-- Outcome of the page-loading phase of `analyzeUrl` (lines 131-215):
navigation may fail (line 139), content extraction may fail (line 167),
or both cheerio parse attempts may fail (line 200); a first parse failure
followed by a successful sanitized re-parse behaves like `loaded`. -/
inductive LoadOutcome
  | navigationError (msg : String)
  | contentError (msg : String)
  | parseError (firstMsg secondMsg : String)
  | loaded (info : PageInfo) (oc : CheckOutcomes)

/-- `analyzeUrl` (accessibilityAnalyzer.js, lines 110-333): a loader-level
failure is rethrown by the outer catch (line 323) wrapped in a single
`Failed to analyze URL` error; otherwise the completed report is returned.
The browser-handle cleanup in the `finally` block has no effect on the
returned value and is not modelled. -/
def analyzeUrl : LoadOutcome → Except String Results
  | .navigationError m =>
      .error ("Failed to analyze URL: " ++ ("Failed to load webpage: " ++ m))
  | .contentError m =>
      .error ("Failed to analyze URL: " ++ ("Failed to get page content: " ++ m))
  | .parseError _ m2 =>
      .error ("Failed to analyze URL: " ++ ("Unable to parse webpage content: " ++ m2))
  | .loaded info oc => .ok (analyzeLoaded info oc)

/-- An `<img>` element as seen by `checkImages`: its `alt`, `role` and
`src` attributes, each possibly absent. -/
structure Img where
  alt : Option String
  role : Option String
  src : Option String
deriving DecidableEq, Repr

/-- The issues pushed for one image by the `images.each` body of
`checkImages` (lines 804-832): a missing `alt` attribute is an error;
an empty (after trim) `alt` with a falsy `role` attribute is a warning. -/
def imageIssues (img : Img) : List Issue :=
  match img.alt with
  | none =>
      [{ severity := .error, rule := "missingAltText",
         message := "Image missing alt attribute" }]
  | some alt =>
      if strTrim alt = "" ∧ truthy img.role = none then
        [{ severity := .warning, rule := "emptyAltText",
           message := "Image has empty alt text - ensure this is decorative" }]
      else []

/-- `checkImages` (accessibilityAnalyzer.js, lines 796-842).
`passed = Math.max(0, totalImages - errorCount)`; since at most one issue
is pushed per image, `errorCount ≤ totalImages` and the truncated Nat
subtraction coincides with the JS `Math.max`. -/
def checkImages (imgs : List Img) : ImagesResult :=
  let issues := (imgs.map imageIssues).flatten
  { totalImages := imgs.length,
    issues := issues,
    passed := imgs.length - countSeverity .error issues }

/-- Number of issues in a list with a given rule and severity. -/
def countRule (r : String) (s : Severity) (issues : List Issue) : Nat :=
  issues.countP (fun i => i.rule == r && i.severity == s)

/-- The `headingHierarchy` warnings produced by the index loop of
`checkHeadings` (lines 868-881): one warning for each adjacent pair of
collected heading levels whose level jumps by more than one. -/
def hierarchyWarnings : List Nat → List Issue
  | current :: next :: rest =>
      (if next > current + 1 then
        [{ severity := .warning, rule := "headingHierarchy",
           message := "Heading level jumps from h" ++ toString current
             ++ " to h" ++ toString next }]
       else [])
      ++ hierarchyWarnings (next :: rest)
  | _ => []

/-- `checkHeadings` (accessibilityAnalyzer.js, lines 844-903), taking the
collected heading levels in document order as input (the JS derives them
from the tag names of `$('h1, h2, h3, h4, h5, h6')`). -/
def checkHeadings (levels : List Nat) : HeadingsResult :=
  let hasH1 := levels.contains 1
  let issues :=
    hierarchyWarnings levels
      ++ (if ¬hasH1 ∧ levels.length > 0 then
            [{ severity := .error, rule := "missingH1",
               message := "Page missing h1 heading" }]
          else [])
  { totalHeadings := levels.length, hierarchy := levels,
    issues := issues, hasH1 := hasH1 }

/-- Specification-side count of adjacent heading-level pairs that jump by
more than one level. -/
def countLevelJumps (levels : List Nat) : Nat :=
  (levels.zip levels.tail).countP (fun p => p.2 > p.1 + 1)

example : checkImages [⟨none, none, none⟩] =
    { totalImages := 1,
      issues := [{ severity := .error, rule := "missingAltText",
                   message := "Image missing alt attribute" }],
      passed := 0 } := by decide

example : (checkHeadings [1, 2, 4]).hasH1 = true := by decide

example : countRule "headingHierarchy" .warning (checkHeadings [1, 2, 4]).issues = 1 := by
  decide

/-- Page signals consumed by `checkVisualAccessibility` (lines 386-494):
the landmark count, the number of focusable elements lacking a focus
indicator (computed in-page), the viewport meta content, and the number of
`img:not([alt])` elements. -/
structure VisualInput where
  ariaLandmarks : Nat
  focusIssues : Nat
  viewportContent : Option String
  imagesWithoutAlt : Nat
deriving DecidableEq, Repr

/-- Initial per-category analysis record built by `analyzeDisabilityImpacts`
(lines 336-369): empty issues, score 100, no recommendations. -/
def freshAnalysis : DisabilityAnalysis := ⟨[], 100, []⟩

/-- Landmark block of `checkVisualAccessibility` (lines 396-406). -/
def visualLandmarkStep (inp : VisualInput) (a : DisabilityAnalysis) : DisabilityAnalysis :=
  if inp.ariaLandmarks = 0 then
    { a with
      issues := a.issues ++
        [{ severity := .error, rule := "missingLandmarks",
           message := "Page lacks ARIA landmarks for screen reader navigation" }],
      score := a.score - 15 }
  else a

/-- Focus-indicator block of `checkVisualAccessibility` (lines 429-439);
the penalty is `Math.min(20, issues * 2)`. -/
def visualFocusStep (inp : VisualInput) (a : DisabilityAnalysis) : DisabilityAnalysis :=
  if inp.focusIssues > 0 then
    { a with
      issues := a.issues ++
        [{ severity := .warning, rule := "missingFocusIndicators",
           message := toString inp.focusIssues ++ " elements lack visible focus indicators" }],
      score := a.score - min 20 ((inp.focusIssues : Int) * 2) }
  else a

/-- Viewport block of `checkVisualAccessibility` (lines 446-457):
fires when the viewport content attribute is truthy and includes
`user-scalable=no`. -/
def visualZoomStep (inp : VisualInput) (a : DisabilityAnalysis) : DisabilityAnalysis :=
  match truthy inp.viewportContent with
  | some content =>
      if strContains content "user-scalable=no" then
        { a with
          issues := a.issues ++
        [{ severity := .error, rule := "preventZoom",
            message := "Viewport prevents users from zooming" }],
          score := a.score - 25 }
      else a
  | none => a

/-- Alt-text block of `checkVisualAccessibility` (lines 464-475): one
aggregated error whose message carries the count, penalty `5` per image. -/
def visualAltStep (inp : VisualInput) (a : DisabilityAnalysis) : DisabilityAnalysis :=
  if inp.imagesWithoutAlt > 0 then
    { a with
      issues := a.issues ++
        [{ severity := .error, rule := "missingAltText",
           message := toString inp.imagesWithoutAlt ++ " images missing alt attributes" }],
      score := a.score - (inp.imagesWithoutAlt : Int) * 5 }
  else a

/-- Recommendation block shared by all four categories: the fixed list is
pushed only when the score has dropped below 80. -/
def recommendStep (recs : List String) (a : DisabilityAnalysis) : DisabilityAnalysis :=
  if a.score < 80 then { a with recommendations := a.recommendations ++ recs } else a

/-- Fixed recommendation list of the visual category (lines 482-489). -/
def visualRecommendations : List String :=
  [ "Add descriptive alt text to all images",
    "Ensure minimum 4.5:1 contrast ratio for text",
    "Use proper heading hierarchy (h1, h2, h3, etc.)",
    "Add ARIA landmarks for better screen reader navigation",
    "Provide visible focus indicators for keyboard navigation",
    "Enable zoom functionality up to 200%" ]

/-- `checkVisualAccessibility` (accessibilityAnalyzer.js, lines 386-494):
the four penalty blocks in source order, then the recommendation block. -/
def checkVisualAccessibility (inp : VisualInput) : DisabilityAnalysis :=
  recommendStep visualRecommendations
    (visualAltStep inp (visualZoomStep inp (visualFocusStep inp
      (visualLandmarkStep inp freshAnalysis))))

/-- Page signals consumed by `checkAuditoryAccessibility` (lines 496-572):
for each `<video>` whether it has a captions/subtitles track, the count of
`audio[autoplay]` elements, the count of `audio` elements, and whether a
transcript marker exists. -/
structure AuditoryInput where
  videosHaveCaptions : List Bool
  autoplayAudioCount : Nat
  audioCount : Nat
  hasTranscripts : Bool
deriving DecidableEq, Repr

/-- Caption block of `checkAuditoryAccessibility` (lines 499-526):
penalty `20` per video without captions. -/
def auditoryCaptionStep (inp : AuditoryInput) (a : DisabilityAnalysis) : DisabilityAnalysis :=
  if inp.videosHaveCaptions.length > 0 then
    let videosWithoutCaptions := (inp.videosHaveCaptions.filter (fun h => !h)).length
    if videosWithoutCaptions > 0 then
      { a with
        issues := a.issues ++
        [{ severity := .error, rule := "missingCaptions",
           message := toString videosWithoutCaptions ++ " video(s) lack captions" }],
        score := a.score - (videosWithoutCaptions : Int) * 20 }
    else a
  else a

/-- Autoplay block of `checkAuditoryAccessibility` (lines 529-540). -/
def auditoryAutoplayStep (inp : AuditoryInput) (a : DisabilityAnalysis) : DisabilityAnalysis :=
  if inp.autoplayAudioCount > 0 then
    { a with
      issues := a.issues ++
        [{ severity := .warning, rule := "autoplayAudio",
           message := "Auto-playing audio detected" }],
      score := a.score - 15 }
  else a

/-- Transcript block of `checkAuditoryAccessibility` (lines 543-557). -/
def auditoryTranscriptStep (inp : AuditoryInput) (a : DisabilityAnalysis) : DisabilityAnalysis :=
  if inp.audioCount > 0 ∧ ¬inp.hasTranscripts then
    { a with
      issues := a.issues ++
        [{ severity := .warning, rule := "missingTranscripts",
           message := "Audio content may lack transcripts" }],
      score := a.score - 10 }
  else a

/-- Fixed recommendation list of the auditory category (lines 561-567). -/
def auditoryRecommendations : List String :=
  [ "Provide captions for all video content",
    "Include transcripts for audio content",
    "Use visual indicators alongside audio alerts",
    "Avoid auto-playing audio content",
    "Ensure captions are accurate and synchronized" ]

/-- `checkAuditoryAccessibility` (accessibilityAnalyzer.js, lines 496-572). -/
def checkAuditoryAccessibility (inp : AuditoryInput) : DisabilityAnalysis :=
  recommendStep auditoryRecommendations
    (auditoryTranscriptStep inp (auditoryAutoplayStep inp
      (auditoryCaptionStep inp freshAnalysis)))

/-- Page signals consumed by `checkMotorAccessibility` (lines 574-681):
the in-page counts of keyboard-inaccessible interactive elements and of
small click targets, and the number of skip links. -/
structure MotorInput where
  keyboardIssues : Nat
  smallTargets : Nat
  skipLinks : Nat
deriving DecidableEq, Repr

/-- Keyboard block of `checkMotorAccessibility` (lines 596-606):
penalty `10` per keyboard-inaccessible element. -/
def motorKeyboardStep (inp : MotorInput) (a : DisabilityAnalysis) : DisabilityAnalysis :=
  if inp.keyboardIssues > 0 then
    { a with
      issues := a.issues ++
        [{ severity := .error, rule := "keyboardInaccessible",
           message := toString inp.keyboardIssues ++ " interactive elements not keyboard accessible" }],
      score := a.score - (inp.keyboardIssues : Int) * 10 }
  else a

/-- Click-target block of `checkMotorAccessibility` (lines 631-641):
penalty `5` per small target. -/
def motorTargetStep (inp : MotorInput) (a : DisabilityAnalysis) : DisabilityAnalysis :=
  if inp.smallTargets > 0 then
    { a with
      issues := a.issues ++
        [{ severity := .warning, rule := "smallClickTargets",
           message := toString inp.smallTargets ++ " click targets smaller than 44x44 pixels" }],
      score := a.score - (inp.smallTargets : Int) * 5 }
  else a

/-- Skip-link block of `checkMotorAccessibility` (lines 648-662). -/
def motorSkipLinkStep (inp : MotorInput) (a : DisabilityAnalysis) : DisabilityAnalysis :=
  if inp.skipLinks = 0 then
    { a with
      issues := a.issues ++
        [{ severity := .warning, rule := "missingSkipLinks",
           message := "Page lacks skip navigation links" }],
      score := a.score - 10 }
  else a

/-- Fixed recommendation list of the motor category (lines 669-676). -/
def motorRecommendations : List String :=
  [ "Ensure all interactive elements are keyboard accessible",
    "Make click targets at least 44x44 pixels",
    "Provide generous spacing between clickable elements",
    "Avoid keyboard traps",
    "Add skip links for navigation",
    "Support alternative input methods" ]

/-- `checkMotorAccessibility` (accessibilityAnalyzer.js, lines 574-681). -/
def checkMotorAccessibility (inp : MotorInput) : DisabilityAnalysis :=
  recommendStep motorRecommendations
    (motorSkipLinkStep inp (motorTargetStep inp (motorKeyboardStep inp freshAnalysis)))

/-- A `<form>` as seen by `checkCognitiveAccessibility`: whether it has a
help/description marker, and its count of complex inputs. -/
structure CogForm where
  hasHelp : Bool
  complexInputs : Nat
deriving DecidableEq, Repr

/-- Page signals consumed by `checkCognitiveAccessibility` (lines 683-778). -/
structure CognitiveInput where
  forms : List CogForm
  hasTimeouts : Bool
  blinkingElements : Nat
  textContent : String
deriving DecidableEq, Repr

/-- Word count of one sentence in `calculateAverageWordsPerSentence`:
`sentence.trim().split(/\s+/).length`.  For the trimmed, non-empty
sentences the filter keeps this equals the JS regex split count. -/
def wordsInSentence (s : String) : Nat :=
  ((splitOnPred (fun c => c.isWhitespace) (strTrim s)).filter (fun w => w != "")).length

/-- `calculateAverageWordsPerSentence` (accessibilityAnalyzer.js,
lines 780-794): split the text on `[.!?]+`, drop blank sentences, and
average the word counts (0 when there is no sentence).  The JS float
division is modelled exactly with Rat. -/
def calculateAverageWordsPerSentence (text : String) : ℚ :=
  let sentences :=
    (splitOnPred (fun c => c == '.' || c == '!' || c == '?') text).filter
      (fun s => (strTrim s).length > 0)
  if sentences.length = 0 then 0
  else ((sentences.foldl (fun total s => total + wordsInSentence s) 0 : Nat) : ℚ)
    / (sentences.length : ℚ)

/-- Form-help block of `checkCognitiveAccessibility` (lines 686-715):
penalty `10` per complex form without help text. -/
def cognitiveFormStep (inp : CognitiveInput) (a : DisabilityAnalysis) : DisabilityAnalysis :=
  if inp.forms.length > 0 then
    let formsWithoutHelp :=
      (inp.forms.filter (fun f => decide (f.complexInputs > 0) && !f.hasHelp)).length
    if formsWithoutHelp > 0 then
      { a with
        issues := a.issues ++
        [{ severity := .warning, rule := "missingFormHelp",
           message := toString formsWithoutHelp ++ " complex form(s) lack help text" }],
        score := a.score - (formsWithoutHelp : Int) * 10 }
    else a
  else a

/-- Session-timeout block of `checkCognitiveAccessibility` (lines 718-729). -/
def cognitiveTimeoutStep (inp : CognitiveInput) (a : DisabilityAnalysis) : DisabilityAnalysis :=
  if inp.hasTimeouts then
    { a with
      issues := a.issues ++
        [{ severity := .warning, rule := "sessionTimeouts",
           message := "Page may have session timeouts" }],
      score := a.score - 10 }
  else a

/-- Moving-content block of `checkCognitiveAccessibility` (lines 732-743). -/
def cognitiveMovingStep (inp : CognitiveInput) (a : DisabilityAnalysis) : DisabilityAnalysis :=
  if inp.blinkingElements > 0 then
    { a with
      issues := a.issues ++
        [{ severity := .warning, rule := "movingContent",
           message := "Page contains blinking or animated content" }],
      score := a.score - 15 }
  else a

/-- Language-complexity block of `checkCognitiveAccessibility`
(lines 746-762): an `info` issue and penalty `5` when the average words
per sentence exceeds 20. -/
def cognitiveLanguageStep (inp : CognitiveInput) (a : DisabilityAnalysis) : DisabilityAnalysis :=
  if calculateAverageWordsPerSentence inp.textContent > 20 then
    { a with
      issues := a.issues ++
        [{ severity := .info, rule := "complexLanguage",
           message := "Text may be complex for some users" }],
      score := a.score - 5 }
  else a

/-- Fixed recommendation list of the cognitive category (lines 766-772). -/
def cognitiveRecommendations : List String :=
  [ "Use simple, clear language",
    "Provide help text for complex forms",
    "Give users control over time limits",
    "Use consistent navigation patterns",
    "Minimize distractions and moving content",
    "Break up long content into smaller sections" ]

/-- `checkCognitiveAccessibility` (accessibilityAnalyzer.js, lines 683-778). -/
def checkCognitiveAccessibility (inp : CognitiveInput) : DisabilityAnalysis :=
  recommendStep cognitiveRecommendations
    (cognitiveLanguageStep inp (cognitiveMovingStep inp
      (cognitiveTimeoutStep inp (cognitiveFormStep inp freshAnalysis))))

example : (checkVisualAccessibility ⟨1, 0, none, 21⟩).score = -5 := by decide

example :
    (checkVisualAccessibility ⟨0, 0, some "width=device-width, user-scalable=no", 0⟩).score
      = 60 := by decide

/-- An issue as consumed by the AI-suggestions service (aiSuggestions.js):
its `rule`, `type`, `message` and `context` fields, each possibly absent.
`typeField` is the JS `type` property (a plain string there, not the
severity enum). -/
structure IssueRef where
  rule : Option String
  typeField : Option String
  message : Option String
  context : Option String
deriving DecidableEq, Repr

/-- A suggestion object returned by the service: fields `issue_type`,
`issue_message`, `ai_suggestion`, `priority`, `estimated_fix_time`.  The
fallback branch never sets `issue_message`, hence the Option. -/
structure Suggestion where
  issue_type : String
  issue_message : Option String
  ai_suggestion : String
  priority : String
  estimated_fix_time : String
deriving DecidableEq, Repr

/-- `getPriority` (aiSuggestions.js, lines 160-164). -/
def getPriority (t : Option String) : String :=
  let s := strToLower (t.getD "")
  if strContains s "alt" || strContains s "label" then "high" else "medium"

/-- `getEstimatedTime` (aiSuggestions.js, lines 166-170). -/
def getEstimatedTime (t : Option String) : String :=
  let s := strToLower (t.getD "")
  if strContains s "alt" then "5-10 minutes" else "10-30 minutes"

/-- `formatSuggestion` (aiSuggestions.js, lines 75-83). -/
def formatSuggestion (issue : IssueRef) (text : String) : Suggestion :=
  { issue_type := (jsOrStr issue.rule issue.typeField).getD "Accessibility Issue",
    issue_message := issue.message,
    ai_suggestion := text,
    priority := getPriority (jsOrStr issue.rule issue.typeField),
    estimated_fix_time := getEstimatedTime (jsOrStr issue.rule issue.typeField) }

/-- The static image-alt fallback returned when the rule contains `alt`
(aiSuggestions.js, lines 102-103). -/
def imageAltFallback : Suggestion :=
  { issue_type := "Missing Alt Text", issue_message := none,
    ai_suggestion := "Add descriptive alt attribute: <img src=\"img.png\" alt=\"Description\">",
    priority := "high", estimated_fix_time := "5-10 min" }

/-- The static form-label fallback (lines 105-106). -/
def formLabelFallback : Suggestion :=
  { issue_type := "Missing Label", issue_message := none,
    ai_suggestion := "<label for=\"name\">Name</label><input id=\"name\">",
    priority := "high", estimated_fix_time := "5-10 min" }

/-- The static color-contrast fallback (lines 108-109). -/
def contrastFallback : Suggestion :=
  { issue_type := "Low Contrast", issue_message := none,
    ai_suggestion := "Use higher contrast colors following WCAG AA.",
    priority := "medium", estimated_fix_time := "10-30 min" }

/-- The generic WCAG fallback (line 111); its `issue_type` is the
lowercased rule key itself. -/
def genericFallback (rule : String) : Suggestion :=
  { issue_type := rule, issue_message := none,
    ai_suggestion := "Follow WCAG standards.",
    priority := "medium", estimated_fix_time := "10-30 min" }

/-- `getFallbackSuggestion` (aiSuggestions.js, lines 99-112): substring
match on the lowercased `issue.rule || issue.type || ""`. -/
def getFallbackSuggestion (issue : IssueRef) : Suggestion :=
  let rule := strToLower ((jsOrStr issue.rule issue.typeField).getD "")
  if strContains rule "alt" then imageAltFallback
  else if strContains rule "label" then formLabelFallback
  else if strContains rule "contrast" then contrastFallback
  else genericFallback rule

/-- Shape of a delivered (HTTP-level successful) upstream REST response:
the two optional fields probed by `restGenerateText`,
`resp.data.candidates[0].content.parts[0].text` and
`resp.data.candidates[0].output`.  A response missing both models a
malformed upstream payload. -/
structure RestResponse where
  candidateText : Option String
  candidateOutput : Option String
deriving DecidableEq, Repr

/-- `restGenerateText` (aiSuggestions.js, lines 30-47): throws when the
API key is falsy, propagates an axios rejection (timeout, network error,
non-2xx status), and otherwise extracts the first truthy candidate field,
defaulting to the empty string, then trims. -/
def restGenerateText (apiKey : Option String) (upstream : Except String RestResponse) :
    Except String String :=
  if truthy apiKey = none then .error "GEMINI_API_KEY missing"
  else
    match upstream with
    | .error e => .error e
    | .ok resp => .ok (strTrim ((jsOrStr resp.candidateText resp.candidateOutput).getD ""))

/-- Environment of one `getGeminiSuggestion` call: whether the SDK client
was initialized (`this.genAI` non-null), the configured API key, the
outcome of the SDK text generation, and the raw REST outcome. -/
structure GatewayEnv where
  genAI : Bool
  apiKey : Option String
  sdkResult : Except String String
  restUpstream : Except String RestResponse

/-- The cleanup applied to an SDK response text:
`.replace(/[*`]/g, "").trim()` (line 57); code 96 is the backquote. -/
def sanitizeSdkText (t : String) : String :=
  strTrim ((t.toList.filter (fun c => c ≠ '*' ∧ c.toNat ≠ 96)).asString)

/-- `getGeminiSuggestion` (aiSuggestions.js, lines 49-73): try the SDK if
initialized; on SDK failure or absence try REST; on a REST throw return
the rule-based fallback.  The function is total: it never throws. -/
def getGeminiSuggestion (env : GatewayEnv) (issue : IssueRef) : Suggestion :=
  let viaRest :=
    match restGenerateText env.apiKey env.restUpstream with
    | .ok text => formatSuggestion issue text
    | .error _ => getFallbackSuggestion issue
  if env.genAI then
    match env.sdkResult with
    | .ok raw => formatSuggestion issue (sanitizeSdkText raw)
    | .error _ => viaRest
  else viaRest

/-- An axe-style violation as consumed by `extractAllIssues`
(aiSuggestions.js, lines 114-133): `id`, `description`, and the html of
the first node when present. -/
structure Violation where
  id : String
  description : String
  nodeHtml : Option String
deriving DecidableEq, Repr

/-- `extractAllIssues` of the active service (aiSuggestions.js,
lines 114-133): one issue per entry of `results.violations`, truncated to
the first 6 by `issues.slice(0, 6)`. -/
def extractAllIssues (violations : List Violation) : List IssueRef :=
  (violations.map (fun v =>
    { rule := some v.id, typeField := some v.id, message := some v.description,
      context := some ((truthy v.nodeHtml).getD "") })).take 6

/-- `generateSuggestions` of the active service (aiSuggestions.js,
lines 135-158): one suggestion per extracted issue, via the gateway when
`AI_ENABLED` and via the rule-based fallback otherwise.  No delay is
inserted between iterations and no deduplication is performed. -/
def generateSuggestions (aiEnabled : Bool) (env : GatewayEnv)
    (violations : List Violation) : List Suggestion :=
  (extractAllIssues violations).map (fun issue =>
    if aiEnabled then getGeminiSuggestion env issue else getFallbackSuggestion issue)

/-- The deduplication loop of the alternative `generateSuggestions`
implementation (aiSuggestions.js, lines 242-252): keep a suggestion only
when its lowercased `issue_type` is non-empty and not seen before. -/
def removeDuplicateSuggestions : List Suggestion → List String → List Suggestion
  | [], _ => []
  | s :: rest, seenTypes =>
      let key := strToLower s.issue_type
      if key ≠ "" ∧ ¬ seenTypes.contains key then
        s :: removeDuplicateSuggestions rest (key :: seenTypes)
      else removeDuplicateSuggestions rest seenTypes

example :
    getFallbackSuggestion ⟨some "missingAltText", some "error", some "m", none⟩
      = imageAltFallback := by decide

example :
    getGeminiSuggestion ⟨false, some "k", .error "x", .ok ⟨none, none⟩⟩
        ⟨some "missingAltText", some "error", some "m", none⟩
      = formatSuggestion ⟨some "missingAltText", some "error", some "m", none⟩ "" := by
  decide

lemma recommendStep_score (recs : List String) (a : DisabilityAnalysis) :
    (recommendStep recs a).score = a.score ∧ (recommendStep recs a).issues = a.issues := by
  unfold recommendStep; split <;> simp

lemma visualLandmarkStep_score_le (inp : VisualInput) (a : DisabilityAnalysis) :
    (visualLandmarkStep inp a).score ≤ a.score := by
  unfold visualLandmarkStep; split <;> simp

lemma visualFocusStep_score_le (inp : VisualInput) (a : DisabilityAnalysis) :
    (visualFocusStep inp a).score ≤ a.score := by
  unfold visualFocusStep; split <;> simp

lemma visualZoomStep_score_le (inp : VisualInput) (a : DisabilityAnalysis) :
    (visualZoomStep inp a).score ≤ a.score := by
  unfold visualZoomStep
  split
  · split <;> simp
  · simp

lemma visualAltStep_score_le (inp : VisualInput) (a : DisabilityAnalysis) :
    (visualAltStep inp a).score ≤ a.score := by
  unfold visualAltStep; split <;> simp

lemma auditoryCaptionStep_score_le (inp : AuditoryInput) (a : DisabilityAnalysis) :
    (auditoryCaptionStep inp a).score ≤ a.score := by
  unfold auditoryCaptionStep
  split
  · simp only []
    split <;> simp
  · simp

lemma auditoryAutoplayStep_score_le (inp : AuditoryInput) (a : DisabilityAnalysis) :
    (auditoryAutoplayStep inp a).score ≤ a.score := by
  unfold auditoryAutoplayStep; split <;> simp

lemma auditoryTranscriptStep_score_le (inp : AuditoryInput) (a : DisabilityAnalysis) :
    (auditoryTranscriptStep inp a).score ≤ a.score := by
  unfold auditoryTranscriptStep; split <;> simp

lemma motorKeyboardStep_score_le (inp : MotorInput) (a : DisabilityAnalysis) :
    (motorKeyboardStep inp a).score ≤ a.score := by
  unfold motorKeyboardStep; split <;> simp

lemma motorTargetStep_score_le (inp : MotorInput) (a : DisabilityAnalysis) :
    (motorTargetStep inp a).score ≤ a.score := by
  unfold motorTargetStep; split <;> simp

lemma motorSkipLinkStep_score_le (inp : MotorInput) (a : DisabilityAnalysis) :
    (motorSkipLinkStep inp a).score ≤ a.score := by
  unfold motorSkipLinkStep; split <;> simp

lemma cognitiveFormStep_score_le (inp : CognitiveInput) (a : DisabilityAnalysis) :
    (cognitiveFormStep inp a).score ≤ a.score := by
  unfold cognitiveFormStep
  split
  · simp only []
    split <;> simp
  · simp

lemma cognitiveTimeoutStep_score_le (inp : CognitiveInput) (a : DisabilityAnalysis) :
    (cognitiveTimeoutStep inp a).score ≤ a.score := by
  unfold cognitiveTimeoutStep; split <;> simp

lemma cognitiveMovingStep_score_le (inp : CognitiveInput) (a : DisabilityAnalysis) :
    (cognitiveMovingStep inp a).score ≤ a.score := by
  unfold cognitiveMovingStep; split <;> simp

lemma cognitiveLanguageStep_score_le (inp : CognitiveInput) (a : DisabilityAnalysis) :
    (cognitiveLanguageStep inp a).score ≤ a.score := by
  unfold cognitiveLanguageStep; split <;> simp

/-- C2 (counterexample): the disability scores are not floored at 0.  A
page with a landmark present, no focus or zoom issue, and 21 images
without alt text gets visual score `100 - 21*5 = -5 < 0`, contradicting
`0 ≤ score` for every input. -/
theorem visualScore_not_floored_counterexample :
    ¬ (0 ≤ (checkVisualAccessibility ⟨1, 0, none, 21⟩).score) := by decide

/-- C2 (amended): every disability category score starts at 100 and is
only ever decremented by the fixed rule-specific penalties, so it never
exceeds 100; the code applies no floor at 0, and with enough
penalty-triggering elements the score becomes negative (see the
counterexample). -/
theorem disabilityScore_upper_bound :
    ∀ (v : VisualInput) (au : AuditoryInput) (m : MotorInput) (c : CognitiveInput),
      freshAnalysis.score = 100
      ∧ (checkVisualAccessibility v).score ≤ 100
      ∧ (checkAuditoryAccessibility au).score ≤ 100
      ∧ (checkMotorAccessibility m).score ≤ 100
      ∧ (checkCognitiveAccessibility c).score ≤ 100 := by
  intro v au m c
  refine ⟨rfl, ?_, ?_, ?_, ?_⟩
  · have h0 := (recommendStep_score visualRecommendations
      (visualAltStep v (visualZoomStep v (visualFocusStep v
        (visualLandmarkStep v freshAnalysis))))).1
    have h1 := visualAltStep_score_le v
      (visualZoomStep v (visualFocusStep v (visualLandmarkStep v freshAnalysis)))
    have h2 := visualZoomStep_score_le v
      (visualFocusStep v (visualLandmarkStep v freshAnalysis))
    have h3 := visualFocusStep_score_le v (visualLandmarkStep v freshAnalysis)
    have h4 := visualLandmarkStep_score_le v freshAnalysis
    have h5 : freshAnalysis.score = 100 := rfl
    unfold checkVisualAccessibility
    omega
  · have h0 := (recommendStep_score auditoryRecommendations
      (auditoryTranscriptStep au (auditoryAutoplayStep au
        (auditoryCaptionStep au freshAnalysis)))).1
    have h1 := auditoryTranscriptStep_score_le au
      (auditoryAutoplayStep au (auditoryCaptionStep au freshAnalysis))
    have h2 := auditoryAutoplayStep_score_le au (auditoryCaptionStep au freshAnalysis)
    have h3 := auditoryCaptionStep_score_le au freshAnalysis
    have h5 : freshAnalysis.score = 100 := rfl
    unfold checkAuditoryAccessibility
    omega
  · have h0 := (recommendStep_score motorRecommendations
      (motorSkipLinkStep m (motorTargetStep m (motorKeyboardStep m freshAnalysis)))).1
    have h1 := motorSkipLinkStep_score_le m
      (motorTargetStep m (motorKeyboardStep m freshAnalysis))
    have h2 := motorTargetStep_score_le m (motorKeyboardStep m freshAnalysis)
    have h3 := motorKeyboardStep_score_le m freshAnalysis
    have h5 : freshAnalysis.score = 100 := rfl
    unfold checkMotorAccessibility
    omega
  · have h0 := (recommendStep_score cognitiveRecommendations
      (cognitiveLanguageStep c (cognitiveMovingStep c (cognitiveTimeoutStep c
        (cognitiveFormStep c freshAnalysis))))).1
    have h1 := cognitiveLanguageStep_score_le c
      (cognitiveMovingStep c (cognitiveTimeoutStep c (cognitiveFormStep c freshAnalysis)))
    have h2 := cognitiveMovingStep_score_le c
      (cognitiveTimeoutStep c (cognitiveFormStep c freshAnalysis))
    have h3 := cognitiveTimeoutStep_score_le c (cognitiveFormStep c freshAnalysis)
    have h4 := cognitiveFormStep_score_le c freshAnalysis
    have h5 : freshAnalysis.score = 100 := rfl
    unfold checkCognitiveAccessibility
    omega

/-- C1: every report returned by `analyzeUrl` has
`summary.criticalIssues` equal to the number of `error`-severity issues
across all checks and disability analyses,
`summary.overallScore = max 0 (100 - 10*critical - 5*warning)`, and
`wcagLevel = "AA"` exactly when `criticalIssues = 0`. -/
theorem analyzeUrl_summary_invariant (load : LoadOutcome) (r : Results)
    (h : analyzeUrl load = .ok r) :
    r.summary.criticalIssues = countSeverity .error (allIssues r.checks r.disabilityAnalysis)
    ∧ r.summary.overallScore
        = max 0 (100 - ((r.summary.criticalIssues : Int) * 10
            + (r.summary.warningIssues : Int) * 5))
    ∧ (r.summary.wcagLevel = "AA" ↔ r.summary.criticalIssues = 0) := by
  cases load with
  | navigationError m => simp [analyzeUrl] at h
  | contentError m => simp [analyzeUrl] at h
  | parseError m1 m2 => simp [analyzeUrl] at h
  | loaded info oc =>
    simp only [analyzeUrl, Except.ok.injEq] at h
    subst h
    obtain ⟨s1, s2, s3, s4, s5, s6⟩ := calculateSummary_spec (assembleChecks oc)
      (recoverCheck oc.disability getEmptyDisabilityAnalysis)
    refine ⟨s2, s5, ?_⟩
    rw [show (analyzeLoaded info oc).summary.wcagLevel
        = (if (calculateSummary (assembleChecks oc)
            (recoverCheck oc.disability getEmptyDisabilityAnalysis)).1.criticalIssues = 0
           then "AA" else "Non-compliant") from s6]
    constructor
    · intro hw
      by_contra hc
      have hc2 : ¬ (calculateSummary (assembleChecks oc)
          (recoverCheck oc.disability getEmptyDisabilityAnalysis)).1.criticalIssues = 0 := hc
      rw [if_neg hc2] at hw
      simp at hw
    · intro hc
      have hc2 : (calculateSummary (assembleChecks oc)
          (recoverCheck oc.disability getEmptyDisabilityAnalysis)).1.criticalIssues = 0 := hc
      rw [if_pos hc2]

/-- Concrete run used to witness C1. -/
def c1Info : PageInfo := ⟨"Example", "http://example.com", true, false, false⟩

/-- Concrete check outcomes used to witness C1: one error issue in the
images check. -/
def c1Outcomes : CheckOutcomes :=
  ⟨.ok ⟨1, [⟨.error, "missingAltText", "Image missing alt attribute"⟩], 0⟩,
   .ok ⟨0, [], [], false⟩, .ok ⟨0, [], 0⟩, .ok ⟨0, [], 0⟩,
   .ok ⟨[], true⟩, .ok ⟨[], true⟩, .ok ⟨[], true⟩,
   .ok ⟨false, false, false, false, []⟩, .ok getEmptyDisabilityAnalysis⟩

/-- Witness for C1 at a concrete successful run. -/
theorem analyzeUrl_summary_invariant_witness :
    (analyzeLoaded c1Info c1Outcomes).summary.criticalIssues
        = countSeverity .error (allIssues (analyzeLoaded c1Info c1Outcomes).checks
            (analyzeLoaded c1Info c1Outcomes).disabilityAnalysis)
    ∧ (analyzeLoaded c1Info c1Outcomes).summary.overallScore
        = max 0 (100 - (((analyzeLoaded c1Info c1Outcomes).summary.criticalIssues : Int) * 10
            + ((analyzeLoaded c1Info c1Outcomes).summary.warningIssues : Int) * 5))
    ∧ ((analyzeLoaded c1Info c1Outcomes).summary.wcagLevel = "AA"
        ↔ (analyzeLoaded c1Info c1Outcomes).summary.criticalIssues = 0) :=
  analyzeUrl_summary_invariant (.loaded c1Info c1Outcomes) (analyzeLoaded c1Info c1Outcomes) rfl

/-- C9: in `calculateSummary` every issue counts towards `totalIssues`,
but only `error` issues increment `criticalIssues` and only `warning`
issues increment `warningIssues`; appending an `info`-severity issue
(such as `complexLanguage`) to a disability analysis raises `totalIssues`
by one while leaving `criticalIssues`, `warningIssues`, `overallScore`
and `wcagLevel` unchanged. -/
theorem infoIssue_only_counts_total (checks : Checks) (dis dis' : DisabilityAnalysisSet)
    (i : Issue) (hi : i.severity = .info)
    (hd : dis' = { dis with cognitive :=
        { dis.cognitive with issues := dis.cognitive.issues ++ [i] } }) :
    (calculateSummary checks dis').1.totalIssues
        = (calculateSummary checks dis).1.totalIssues + 1
    ∧ (calculateSummary checks dis').1.criticalIssues
        = (calculateSummary checks dis).1.criticalIssues
    ∧ (calculateSummary checks dis').1.warningIssues
        = (calculateSummary checks dis).1.warningIssues
    ∧ (calculateSummary checks dis').1.overallScore
        = (calculateSummary checks dis).1.overallScore
    ∧ (calculateSummary checks dis').1.wcagLevel
        = (calculateSummary checks dis).1.wcagLevel := by
  subst hd
  obtain ⟨t1, c1, w1, i1, o1, l1⟩ := calculateSummary_spec checks dis
  obtain ⟨t2, c2, w2, i2, o2, l2⟩ := calculateSummary_spec checks
    { dis with cognitive := { dis.cognitive with issues := dis.cognitive.issues ++ [i] } }
  have hall : allIssues checks
      { dis with cognitive := { dis.cognitive with issues := dis.cognitive.issues ++ [i] } }
      = allIssues checks dis ++ [i] := by
    simp [allIssues, DisabilityAnalysisSet.asList]
  have herr : countSeverity .error [i] = 0 := by simp [countSeverity, hi]
  have hwarn : countSeverity .warning [i] = 0 := by simp [countSeverity, hi]
  have hc : (calculateSummary checks
      { dis with cognitive := { dis.cognitive with issues := dis.cognitive.issues ++ [i] } }).1.criticalIssues
      = (calculateSummary checks dis).1.criticalIssues := by
    rw [c2, c1, hall, countSeverity_append, herr]
    omega
  have hw : (calculateSummary checks
      { dis with cognitive := { dis.cognitive with issues := dis.cognitive.issues ++ [i] } }).1.warningIssues
      = (calculateSummary checks dis).1.warningIssues := by
    rw [w2, w1, hall, countSeverity_append, hwarn]
    omega
  refine ⟨?_, hc, hw, ?_, ?_⟩
  · rw [t2, t1, hall]
    simp
  · rw [o2, o1, hc, hw]
  · rw [l2, l1, hc]

/-- Concrete checks object used to witness C9: every check in its
empty-fallback state. -/
def c9Checks : Checks :=
  ⟨emptyImagesResult, emptyHeadingsResult, emptyFormsResult, emptyLinksResult,
   emptyCheckedResult, emptyCheckedResult, emptyCheckedResult, emptySemanticResult⟩

/-- The concrete `info` issue used to witness C9. -/
def c9Issue : Issue := ⟨.info, "complexLanguage", "Text may be complex for some users"⟩

/-- The disability analyses of the C9 witness after the `info` issue is
appended to the cognitive category. -/
def c9Dis : DisabilityAnalysisSet :=
  { getEmptyDisabilityAnalysis with cognitive :=
      { getEmptyDisabilityAnalysis.cognitive with
          issues := getEmptyDisabilityAnalysis.cognitive.issues ++ [c9Issue] } }

/-- Witness for C9 at a concrete `complexLanguage` info issue. -/
theorem infoIssue_only_counts_total_witness :
    (calculateSummary c9Checks c9Dis).1.totalIssues
        = (calculateSummary c9Checks getEmptyDisabilityAnalysis).1.totalIssues + 1
    ∧ (calculateSummary c9Checks c9Dis).1.criticalIssues
        = (calculateSummary c9Checks getEmptyDisabilityAnalysis).1.criticalIssues
    ∧ (calculateSummary c9Checks c9Dis).1.warningIssues
        = (calculateSummary c9Checks getEmptyDisabilityAnalysis).1.warningIssues
    ∧ (calculateSummary c9Checks c9Dis).1.overallScore
        = (calculateSummary c9Checks getEmptyDisabilityAnalysis).1.overallScore
    ∧ (calculateSummary c9Checks c9Dis).1.wcagLevel
        = (calculateSummary c9Checks getEmptyDisabilityAnalysis).1.wcagLevel :=
  infoIssue_only_counts_total c9Checks getEmptyDisabilityAnalysis c9Dis c9Issue rfl rfl

/-- C3: a check whose evaluation fails internally is caught by the
per-check try/catch of `analyzeUrl` and contributes its empty-but-valid
fallback result (empty issue list, zeroed counters), and the run still
reaches aggregation: the summary is always computed from the assembled
checks and disability analyses. -/
theorem check_isolation (info : PageInfo) (oc : CheckOutcomes) :
    (∀ e, oc.images = .error e →
        (analyzeLoaded info oc).checks.images = emptyImagesResult)
    ∧ (∀ e, oc.headings = .error e →
        (analyzeLoaded info oc).checks.headings = emptyHeadingsResult)
    ∧ (∀ e, oc.forms = .error e →
        (analyzeLoaded info oc).checks.forms = emptyFormsResult)
    ∧ (∀ e, oc.links = .error e →
        (analyzeLoaded info oc).checks.links = emptyLinksResult)
    ∧ (∀ e, oc.colors = .error e →
        (analyzeLoaded info oc).checks.colors = emptyCheckedResult)
    ∧ (∀ e, oc.keyboard = .error e →
        (analyzeLoaded info oc).checks.keyboard = emptyCheckedResult)
    ∧ (∀ e, oc.aria = .error e →
        (analyzeLoaded info oc).checks.aria = emptyCheckedResult)
    ∧ (∀ e, oc.semantic = .error e →
        (analyzeLoaded info oc).checks.semantic = emptySemanticResult)
    ∧ (∀ e, oc.disability = .error e →
        (analyzeLoaded info oc).disabilityAnalysis = getEmptyDisabilityAnalysis)
    ∧ emptyImagesResult.issues = [] ∧ emptyImagesResult.totalImages = 0
    ∧ emptyImagesResult.passed = 0
    ∧ emptyHeadingsResult.issues = [] ∧ emptyFormsResult.issues = []
    ∧ emptyLinksResult.issues = [] ∧ emptyCheckedResult.issues = []
    ∧ emptySemanticResult.issues = []
    ∧ (analyzeLoaded info oc).summary
        = (calculateSummary (analyzeLoaded info oc).checks
            (analyzeLoaded info oc).disabilityAnalysis).1 := by
  refine ⟨?_, ?_, ?_, ?_, ?_, ?_, ?_, ?_, ?_,
    rfl, rfl, rfl, rfl, rfl, rfl, rfl, rfl, rfl⟩ <;>
    · intro e h
      simp [analyzeLoaded, assembleChecks, recoverCheck, h]

/-- Concrete page info for the C3 witness. -/
def c3Info : PageInfo := ⟨"", "", false, false, false⟩

/-- Concrete outcomes for the C3 witness: every check and the disability
analysis throw. -/
def c3Outcomes : CheckOutcomes :=
  ⟨.error "img", .error "hd", .error "fm", .error "lk",
   .error "co", .error "kb", .error "ar", .error "se", .error "da"⟩

/-- Witness for C3: with every check throwing, each one contributes its
empty fallback and the summary is still computed. -/
theorem check_isolation_witness :
    (analyzeLoaded c3Info c3Outcomes).checks.images = emptyImagesResult
    ∧ (analyzeLoaded c3Info c3Outcomes).checks.headings = emptyHeadingsResult
    ∧ (analyzeLoaded c3Info c3Outcomes).checks.forms = emptyFormsResult
    ∧ (analyzeLoaded c3Info c3Outcomes).checks.links = emptyLinksResult
    ∧ (analyzeLoaded c3Info c3Outcomes).checks.colors = emptyCheckedResult
    ∧ (analyzeLoaded c3Info c3Outcomes).checks.keyboard = emptyCheckedResult
    ∧ (analyzeLoaded c3Info c3Outcomes).checks.aria = emptyCheckedResult
    ∧ (analyzeLoaded c3Info c3Outcomes).checks.semantic = emptySemanticResult
    ∧ (analyzeLoaded c3Info c3Outcomes).disabilityAnalysis = getEmptyDisabilityAnalysis
    ∧ (analyzeLoaded c3Info c3Outcomes).summary
        = (calculateSummary (analyzeLoaded c3Info c3Outcomes).checks
            (analyzeLoaded c3Info c3Outcomes).disabilityAnalysis).1 := by
  obtain ⟨h1, h2, h3, h4, h5, h6, h7, h8, h9, _, _, _, _, _, _, _, _, hs⟩ :=
    check_isolation c3Info c3Outcomes
  exact ⟨h1 "img" rfl, h2 "hd" rfl, h3 "fm" rfl, h4 "lk" rfl, h5 "co" rfl,
    h6 "kb" rfl, h7 "ar" rfl, h8 "se" rfl, h9 "da" rfl, hs⟩

/-- C4: a loader-level failure (navigation, content extraction, double
parse failure) makes `analyzeUrl` return a single error and no report;
a successful run returns a report that is complete and well-formed (all
checks and categories present by construction of `Results`, flattened
issue list and summary consistent).  Every call ends in exactly one of
the two cases. -/
theorem analyzeUrl_all_or_nothing (load : LoadOutcome) :
    (∀ m, load = .navigationError m →
        analyzeUrl load
          = .error ("Failed to analyze URL: " ++ ("Failed to load webpage: " ++ m)))
    ∧ (∀ m, load = .contentError m →
        analyzeUrl load
          = .error ("Failed to analyze URL: " ++ ("Failed to get page content: " ++ m)))
    ∧ (∀ m1 m2, load = .parseError m1 m2 →
        analyzeUrl load
          = .error ("Failed to analyze URL: " ++ ("Unable to parse webpage content: " ++ m2)))
    ∧ (∀ r, analyzeUrl load = .ok r →
        r.issues = allIssues r.checks r.disabilityAnalysis
        ∧ r.summary.totalIssues = r.issues.length
        ∧ r.summary.criticalIssues = countSeverity .error r.issues
        ∧ r.summary.warningIssues = countSeverity .warning r.issues
        ∧ r.summary.overallScore
            = max 0 (100 - ((r.summary.criticalIssues : Int) * 10
                + (r.summary.warningIssues : Int) * 5)))
    ∧ ((∃ msg, analyzeUrl load = .error msg) ∨ (∃ r, analyzeUrl load = .ok r)) := by
  cases load with
  | navigationError m =>
    refine ⟨fun m' hm => by simp_all [analyzeUrl], fun m' hm => by simp_all,
      fun m1 m2 hm => by simp_all, fun r hr => by simp [analyzeUrl] at hr,
      .inl ⟨_, rfl⟩⟩
  | contentError m =>
    refine ⟨fun m' hm => by simp_all, fun m' hm => by simp_all [analyzeUrl],
      fun m1 m2 hm => by simp_all, fun r hr => by simp [analyzeUrl] at hr,
      .inl ⟨_, rfl⟩⟩
  | parseError m1 m2 =>
    refine ⟨fun m' hm => by simp_all, fun m' hm => by simp_all,
      fun m1' m2' hm => by simp_all [analyzeUrl], fun r hr => by simp [analyzeUrl] at hr,
      .inl ⟨_, rfl⟩⟩
  | loaded info oc =>
    refine ⟨fun m' hm => by simp_all, fun m' hm => by simp_all,
      fun m1' m2' hm => by simp_all, ?_, .inr ⟨_, rfl⟩⟩
    intro r hr
    simp only [analyzeUrl, Except.ok.injEq] at hr
    subst hr
    obtain ⟨s1, s2, s3, s4, s5, s6⟩ := calculateSummary_spec (assembleChecks oc)
      (recoverCheck oc.disability getEmptyDisabilityAnalysis)
    have hIss : (analyzeLoaded info oc).issues
        = allIssues (assembleChecks oc)
            (recoverCheck oc.disability getEmptyDisabilityAnalysis) := s4
    refine ⟨s4, ?_, ?_, ?_, s5⟩
    · rw [hIss]; exact s1
    · rw [hIss]; exact s2
    · rw [hIss]; exact s3

/-- Witness for C4 at a concrete navigation failure. -/
theorem analyzeUrl_all_or_nothing_witness :
    analyzeUrl (.navigationError "net::ERR_CONNECTION_REFUSED")
      = .error ("Failed to analyze URL: "
          ++ ("Failed to load webpage: " ++ "net::ERR_CONNECTION_REFUSED")) :=
  (analyzeUrl_all_or_nothing (.navigationError "net::ERR_CONNECTION_REFUSED")).1 _ rfl

lemma countRule_append (r : String) (s : Severity) (a b : List Issue) :
    countRule r s (a ++ b) = countRule r s a + countRule r s b := by
  simp [countRule, List.countP_append]

/-- Specification-side predicate: an image with no `alt` attribute. -/
def imgMissingAlt (img : Img) : Bool := img.alt.isNone

/-- Specification-side predicate: an image whose `alt` trims to the empty
string and whose `role` attribute is falsy. -/
def imgEmptyAltNoRole (img : Img) : Bool :=
  match img.alt with
  | some a => decide (strTrim a = "" ∧ truthy img.role = none)
  | none => false

lemma imageIssues_count_missing (img : Img) :
    countRule "missingAltText" .error (imageIssues img)
      = if imgMissingAlt img then 1 else 0 := by
  cases halt : img.alt with
  | none => simp [imageIssues, halt, countRule, imgMissingAlt]
  | some a =>
    simp only [imageIssues, halt]
    split <;> simp [countRule, imgMissingAlt, halt]

lemma imageIssues_count_empty (img : Img) :
    countRule "emptyAltText" .warning (imageIssues img)
      = if imgEmptyAltNoRole img then 1 else 0 := by
  cases halt : img.alt with
  | none => simp [imageIssues, halt, countRule, imgEmptyAltNoRole]
  | some a =>
    simp only [imageIssues, halt, imgEmptyAltNoRole, decide_eq_true_eq]
    split
    · simp [countRule]
    · simp [countRule]

lemma countRule_images_flatten (imgs : List Img) :
    countRule "missingAltText" .error ((imgs.map imageIssues).flatten)
      = imgs.countP imgMissingAlt
    ∧ countRule "emptyAltText" .warning ((imgs.map imageIssues).flatten)
      = imgs.countP imgEmptyAltNoRole := by
  induction imgs with
  | nil => simp [countRule]
  | cons img rest ih =>
    obtain ⟨ih1, ih2⟩ := ih
    have hf : (((img :: rest).map imageIssues).flatten)
        = imageIssues img ++ ((rest.map imageIssues).flatten) := by simp
    rw [hf]
    constructor
    · rw [countRule_append, ih1, imageIssues_count_missing, List.countP_cons]
      split <;> simp_all <;> omega
    · rw [countRule_append, ih2, imageIssues_count_empty, List.countP_cons]
      split <;> simp_all <;> omega

/-- C5: the images check emits one `error missingAltText` issue per image
with no `alt` attribute and one `warning emptyAltText` issue per image
whose `alt` trims to the empty string with no (truthy) `role` attribute;
a page with exactly one image lacking `alt` yields exactly that one error
and `passed = 0`. -/
theorem checkImages_spec (imgs : List Img) :
    countRule "missingAltText" .error (checkImages imgs).issues
      = imgs.countP imgMissingAlt
    ∧ countRule "emptyAltText" .warning (checkImages imgs).issues
      = imgs.countP imgEmptyAltNoRole
    ∧ (checkImages imgs).totalImages = imgs.length
    ∧ checkImages [⟨none, none, none⟩]
        = { totalImages := 1,
            issues := [{ severity := .error, rule := "missingAltText",
                         message := "Image missing alt attribute" }],
            passed := 0 } := by
  obtain ⟨h1, h2⟩ := countRule_images_flatten imgs
  exact ⟨h1, h2, rfl, by decide⟩

lemma hierarchyWarnings_rules (levels : List Nat) :
    ∀ i ∈ hierarchyWarnings levels, i.rule = "headingHierarchy" ∧ i.severity = .warning := by
  induction levels with
  | nil => simp [hierarchyWarnings]
  | cons a rest ih =>
    cases rest with
    | nil => simp [hierarchyWarnings]
    | cons b rest2 =>
      intro i hi
      rw [show hierarchyWarnings (a :: b :: rest2)
          = (if b > a + 1 then
              [{ severity := .warning, rule := "headingHierarchy",
                 message := "Heading level jumps from h" ++ toString a
                   ++ " to h" ++ toString b }]
             else []) ++ hierarchyWarnings (b :: rest2) from rfl] at hi
      rcases List.mem_append.mp hi with hl | hr
      · split at hl
        · rcases List.mem_singleton.mp hl with rfl
          exact ⟨rfl, rfl⟩
        · cases hl
      · exact ih i hr

lemma hierarchyWarnings_count (levels : List Nat) :
    countRule "headingHierarchy" .warning (hierarchyWarnings levels)
      = countLevelJumps levels := by
  induction levels with
  | nil => simp [hierarchyWarnings, countLevelJumps, countRule]
  | cons a rest ih =>
    cases rest with
    | nil => simp [hierarchyWarnings, countLevelJumps, countRule]
    | cons b rest2 =>
      rw [show hierarchyWarnings (a :: b :: rest2)
          = (if b > a + 1 then
              [{ severity := .warning, rule := "headingHierarchy",
                 message := "Heading level jumps from h" ++ toString a
                   ++ " to h" ++ toString b }]
             else []) ++ hierarchyWarnings (b :: rest2) from rfl,
        countRule_append, ih]
      have hz : countLevelJumps (a :: b :: rest2)
          = (if b > a + 1 then 1 else 0) + countLevelJumps (b :: rest2) := by
        simp [countLevelJumps, List.countP_cons]
        split <;> omega
      rw [hz]
      split <;> simp [countRule] <;> omega

/-- C6: the headings check emits one `headingHierarchy` warning per
adjacent pair of heading levels that jumps by more than one, and a
`missingH1` error exactly when at least one heading exists but none is an
`h1`; the sequence h1, h2, h4 yields exactly the one h2-to-h4 warning and
`hasH1 = true`. -/
theorem checkHeadings_spec (levels : List Nat) :
    countRule "headingHierarchy" .warning (checkHeadings levels).issues
      = countLevelJumps levels
    ∧ ((∃ i ∈ (checkHeadings levels).issues, i.rule = "missingH1" ∧ i.severity = .error)
        ↔ (levels.contains 1 = false ∧ 0 < levels.length))
    ∧ (checkHeadings levels).hasH1 = levels.contains 1
    ∧ (checkHeadings [1, 2, 4]).issues
        = [{ severity := .warning, rule := "headingHierarchy",
             message := "Heading level jumps from h2 to h4" }]
    ∧ (checkHeadings [1, 2, 4]).hasH1 = true := by
  refine ⟨?_, ?_, rfl, by decide, by decide⟩
  · have hiss : (checkHeadings levels).issues
        = hierarchyWarnings levels
          ++ (if ¬(levels.contains 1) ∧ levels.length > 0 then
                [{ severity := .error, rule := "missingH1",
                   message := "Page missing h1 heading" }]
              else []) := rfl
    rw [hiss, countRule_append, hierarchyWarnings_count]
    split <;> simp [countRule]
  · constructor
    · rintro ⟨i, hi, hrule, hsev⟩
      have hiss : (checkHeadings levels).issues
          = hierarchyWarnings levels
            ++ (if ¬(levels.contains 1) ∧ levels.length > 0 then
                  [{ severity := .error, rule := "missingH1",
                     message := "Page missing h1 heading" }]
                else []) := rfl
      rw [hiss] at hi
      rcases List.mem_append.mp hi with hl | hr
      · have := (hierarchyWarnings_rules levels i hl).1
        rw [hrule] at this
        simp at this
      · split at hr
        · rename_i hcond
          exact ⟨by simpa using hcond.1, hcond.2⟩
        · cases hr
    · rintro ⟨hno, hlen⟩
      refine ⟨{ severity := .error, rule := "missingH1",
                message := "Page missing h1 heading" }, ?_, rfl, rfl⟩
      have hiss : (checkHeadings levels).issues
          = hierarchyWarnings levels
            ++ (if ¬(levels.contains 1) ∧ levels.length > 0 then
                  [{ severity := .error, rule := "missingH1",
                     message := "Page missing h1 heading" }]
                else []) := rfl
      rw [hiss]
      refine List.mem_append_right _ ?_
      rw [if_pos ⟨by simpa using hno, hlen⟩]
      exact List.mem_singleton.mpr rfl

lemma visualLandmarkStep_countAlt (inp : VisualInput) (a : DisabilityAnalysis) :
    countRule "missingAltText" .error (visualLandmarkStep inp a).issues
      = countRule "missingAltText" .error a.issues := by
  unfold visualLandmarkStep
  split <;> simp [countRule_append, countRule]

lemma visualFocusStep_countAlt (inp : VisualInput) (a : DisabilityAnalysis) :
    countRule "missingAltText" .error (visualFocusStep inp a).issues
      = countRule "missingAltText" .error a.issues := by
  unfold visualFocusStep
  split <;> simp [countRule_append, countRule]

lemma visualZoomStep_countAlt (inp : VisualInput) (a : DisabilityAnalysis) :
    countRule "missingAltText" .error (visualZoomStep inp a).issues
      = countRule "missingAltText" .error a.issues := by
  unfold visualZoomStep
  split
  · split <;> simp [countRule_append, countRule]
  · rfl

lemma visualAltStep_pos (inp : VisualInput) (a : DisabilityAnalysis)
    (h : 0 < inp.imagesWithoutAlt) :
    (visualAltStep inp a).issues
      = a.issues ++
          [{ severity := .error, rule := "missingAltText",
             message := toString inp.imagesWithoutAlt ++ " images missing alt attributes" }]
    ∧ (visualAltStep inp a).score = a.score - (inp.imagesWithoutAlt : Int) * 5 := by
  unfold visualAltStep
  rw [if_pos h]
  exact ⟨rfl, rfl⟩

lemma visualPrefix_alt_irrelevant (inp : VisualInput) :
    visualZoomStep { inp with imagesWithoutAlt := 0 }
        (visualFocusStep { inp with imagesWithoutAlt := 0 }
          (visualLandmarkStep { inp with imagesWithoutAlt := 0 } freshAnalysis))
      = visualZoomStep inp (visualFocusStep inp (visualLandmarkStep inp freshAnalysis)) := rfl

lemma visualAltStep_zero (inp : VisualInput) (a : DisabilityAnalysis) :
    visualAltStep { inp with imagesWithoutAlt := 0 } a = a := rfl

/-- C10: for a page with `N > 0` images lacking alt, the visual analysis
appends exactly one aggregated `missingAltText` error (its message carries
the count `N`) while the score penalty is `5 * N`: one critical issue
regardless of `N`, a linear score penalty in `N`. -/
theorem visualAlt_aggregated (inp : VisualInput) (h : 0 < inp.imagesWithoutAlt) :
    countRule "missingAltText" .error (checkVisualAccessibility inp).issues = 1
    ∧ (checkVisualAccessibility inp).score
        = (checkVisualAccessibility { inp with imagesWithoutAlt := 0 }).score
          - (inp.imagesWithoutAlt : Int) * 5
    ∧ ∃ i ∈ (checkVisualAccessibility inp).issues,
        i.rule = "missingAltText" ∧ i.severity = .error
        ∧ i.message = toString inp.imagesWithoutAlt ++ " images missing alt attributes" := by
  have hAlt := visualAltStep_pos inp
    (visualZoomStep inp (visualFocusStep inp (visualLandmarkStep inp freshAnalysis))) h
  have hIss : (checkVisualAccessibility inp).issues
      = (visualAltStep inp (visualZoomStep inp (visualFocusStep inp
          (visualLandmarkStep inp freshAnalysis)))).issues :=
    (recommendStep_score _ _).2
  have hScore : (checkVisualAccessibility inp).score
      = (visualAltStep inp (visualZoomStep inp (visualFocusStep inp
          (visualLandmarkStep inp freshAnalysis)))).score :=
    (recommendStep_score _ _).1
  have hScore0 : (checkVisualAccessibility { inp with imagesWithoutAlt := 0 }).score
      = (visualZoomStep inp (visualFocusStep inp
          (visualLandmarkStep inp freshAnalysis))).score := by
    have h1 : (checkVisualAccessibility { inp with imagesWithoutAlt := 0 }).score
        = (visualAltStep { inp with imagesWithoutAlt := 0 }
            (visualZoomStep { inp with imagesWithoutAlt := 0 }
              (visualFocusStep { inp with imagesWithoutAlt := 0 }
                (visualLandmarkStep { inp with imagesWithoutAlt := 0 } freshAnalysis)))).score :=
      (recommendStep_score _ _).1
    rw [h1, visualPrefix_alt_irrelevant, visualAltStep_zero]
  have hpre : countRule "missingAltText" .error
      (visualZoomStep inp (visualFocusStep inp
        (visualLandmarkStep inp freshAnalysis))).issues = 0 := by
    rw [visualZoomStep_countAlt, visualFocusStep_countAlt, visualLandmarkStep_countAlt]
    simp [freshAnalysis, countRule]
  refine ⟨?_, ?_, ?_⟩
  · rw [hIss, hAlt.1, countRule_append, hpre]
    simp [countRule]
  · rw [hScore, hAlt.2, hScore0]
  · refine ⟨{ severity := .error, rule := "missingAltText",
              message := toString inp.imagesWithoutAlt
                ++ " images missing alt attributes" },
      ?_, rfl, rfl, rfl⟩
    rw [hIss, hAlt.1]
    exact List.mem_append_right _ (List.mem_singleton.mpr rfl)

/-- Witness for C10 at a concrete page with 3 images lacking alt. -/
theorem visualAlt_aggregated_witness :
    countRule "missingAltText" .error
        (checkVisualAccessibility ⟨1, 0, none, 3⟩).issues = 1
    ∧ (checkVisualAccessibility ⟨1, 0, none, 3⟩).score
        = (checkVisualAccessibility
            { (⟨1, 0, none, 3⟩ : VisualInput) with imagesWithoutAlt := 0 }).score
          - ((3 : Nat) : Int) * 5
    ∧ ∃ i ∈ (checkVisualAccessibility ⟨1, 0, none, 3⟩).issues,
        i.rule = "missingAltText" ∧ i.severity = .error
        ∧ i.message = toString (3 : Nat) ++ " images missing alt attributes" :=
  visualAlt_aggregated ⟨1, 0, none, 3⟩ (by decide)

/-- The issue used in the C7 theorems: an analyzer `missingAltText` issue. -/
def c7Issue : IssueRef :=
  ⟨some "missingAltText", some "error", some "Image missing alt attribute", none⟩

/-- Gateway environment with an API key but no SDK, whose REST upstream
delivers a response without any recognized candidate field. -/
def c7MalformedEnv : GatewayEnv := ⟨false, some "key", .error "unused", .ok ⟨none, none⟩⟩

/-- C7 (counterexample): on a malformed-but-delivered upstream response
the gateway does not return the rule-based fallback; it formats a
suggestion whose `ai_suggestion` text is empty. -/
theorem gatewayFallback_counterexample :
    getGeminiSuggestion c7MalformedEnv c7Issue ≠ getFallbackSuggestion c7Issue
    ∧ getGeminiSuggestion c7MalformedEnv c7Issue = formatSuggestion c7Issue "" :=
  ⟨by decide, by decide⟩

/-- C7 (amended): the gateway is a total function (never throws).  On
missing credentials or a thrown upstream error (SDK and/or REST) it
returns the deterministic rule-based fallback, which is selected by
substring match on the lowercased rule identifier: `alt` maps to the
image-alt guidance, then `label` to form-label guidance, then `contrast`
to color-contrast guidance, anything else to generic WCAG guidance.  A
malformed upstream response that is delivered without an exception is
instead formatted into a suggestion with empty text (see the
counterexample). -/
theorem gatewayFallback_on_failure :
    ∀ (env : GatewayEnv) (issue : IssueRef),
      (env.genAI = false → truthy env.apiKey = none →
          getGeminiSuggestion env issue = getFallbackSuggestion issue)
      ∧ (∀ e, env.genAI = false → env.restUpstream = .error e →
          getGeminiSuggestion env issue = getFallbackSuggestion issue)
      ∧ (∀ es, env.genAI = true → env.sdkResult = .error es → truthy env.apiKey = none →
          getGeminiSuggestion env issue = getFallbackSuggestion issue)
      ∧ (∀ es er, env.genAI = true → env.sdkResult = .error es →
          env.restUpstream = .error er →
          getGeminiSuggestion env issue = getFallbackSuggestion issue)
      ∧ (strContains (strToLower ((jsOrStr issue.rule issue.typeField).getD "")) "alt" = true →
          getFallbackSuggestion issue = imageAltFallback)
      ∧ (strContains (strToLower ((jsOrStr issue.rule issue.typeField).getD "")) "alt" = false →
          strContains (strToLower ((jsOrStr issue.rule issue.typeField).getD "")) "label" = true →
          getFallbackSuggestion issue = formLabelFallback)
      ∧ (strContains (strToLower ((jsOrStr issue.rule issue.typeField).getD "")) "alt" = false →
          strContains (strToLower ((jsOrStr issue.rule issue.typeField).getD "")) "label" = false →
          strContains (strToLower ((jsOrStr issue.rule issue.typeField).getD "")) "contrast" = true →
          getFallbackSuggestion issue = contrastFallback)
      ∧ (strContains (strToLower ((jsOrStr issue.rule issue.typeField).getD "")) "alt" = false →
          strContains (strToLower ((jsOrStr issue.rule issue.typeField).getD "")) "label" = false →
          strContains (strToLower ((jsOrStr issue.rule issue.typeField).getD "")) "contrast" = false →
          getFallbackSuggestion issue
            = genericFallback (strToLower ((jsOrStr issue.rule issue.typeField).getD ""))) := by
  intro env issue
  refine ⟨?_, ?_, ?_, ?_, ?_, ?_, ?_, ?_⟩
  · intro h1 h2
    simp [getGeminiSuggestion, restGenerateText, h1, h2]
  · intro e h1 h2
    by_cases hk : truthy env.apiKey = none <;>
      simp [getGeminiSuggestion, restGenerateText, h1, h2, hk]
  · intro es h1 h2 h3
    simp [getGeminiSuggestion, restGenerateText, h1, h2, h3]
  · intro es er h1 h2 h3
    by_cases hk : truthy env.apiKey = none <;>
      simp [getGeminiSuggestion, restGenerateText, h1, h2, h3, hk]
  · intro h1
    simp [getFallbackSuggestion, h1]
  · intro h1 h2
    simp [getFallbackSuggestion, h1, h2]
  · intro h1 h2 h3
    simp [getFallbackSuggestion, h1, h2, h3]
  · intro h1 h2 h3
    simp [getFallbackSuggestion, h1, h2, h3]

/-- Gateway environment with no credentials at all, both paths throwing. -/
def c7FailEnv : GatewayEnv := ⟨false, none, .error "e", .error "timeout of 9000ms exceeded"⟩

/-- Witness for C7 amended: no credentials configured, rule contains
`alt`: the call returns the static image-alt fallback. -/
theorem gatewayFallback_on_failure_witness :
    getGeminiSuggestion c7FailEnv c7Issue = getFallbackSuggestion c7Issue
    ∧ getFallbackSuggestion c7Issue = imageAltFallback :=
  ⟨(gatewayFallback_on_failure c7FailEnv c7Issue).1 rfl rfl,
   (gatewayFallback_on_failure c7FailEnv c7Issue).2.2.2.2.1 (by decide)⟩

/-- A duplicated axe-style violation used for the C8 counterexample. -/
def c8Violation : Violation := ⟨"missingAltText", "Image missing alt attribute", none⟩

/-- Environment for the C8 counterexample (unused in fallback mode). -/
def c8Env : GatewayEnv := ⟨false, none, .error "off", .error "off"⟩

/-- C8 (counterexample): the active batch `generateSuggestions` does not
deduplicate: two violations with the same rule produce two suggestions of
the same issue-type, so the returned list does not contain at most one
suggestion per issue-type. -/
theorem batchDedup_counterexample :
    (generateSuggestions false c8Env [c8Violation, c8Violation]).map
        (fun s => s.issue_type) = ["Missing Alt Text", "Missing Alt Text"]
    ∧ ¬ ((generateSuggestions false c8Env [c8Violation, c8Violation]).countP
          (fun s => s.issue_type == "Missing Alt Text") ≤ 1) :=
  ⟨by decide, by decide⟩

lemma removeDup_seen_zero (ss : List Suggestion) :
    ∀ (seen : List String) (t : String), seen.contains t = true →
      (removeDuplicateSuggestions ss seen).countP
        (fun s => strToLower s.issue_type == t) = 0 := by
  induction ss with
  | nil => intro seen t ht; simp [removeDuplicateSuggestions]
  | cons s rest ih =>
    intro seen t ht
    by_cases hc : (strToLower s.issue_type ≠ ""
        ∧ ¬ seen.contains (strToLower s.issue_type) = true)
    · rw [show removeDuplicateSuggestions (s :: rest) seen
          = s :: removeDuplicateSuggestions rest (strToLower s.issue_type :: seen) from by
        simp only [removeDuplicateSuggestions]
        rw [if_pos hc]]
      rw [List.countP_cons]
      have hkey : ¬ ((strToLower s.issue_type == t) = true) := by
        intro hkt
        have heq : strToLower s.issue_type = t := by simpa using hkt
        rw [heq] at hc
        exact hc.2 ht
      have hrec := ih (strToLower s.issue_type :: seen) t
        (by simp [List.contains_cons]; exact Or.inr (by simpa using ht))
      simp [hrec, hkey]
    · rw [show removeDuplicateSuggestions (s :: rest) seen
          = removeDuplicateSuggestions rest seen from by
        simp only [removeDuplicateSuggestions]
        rw [if_neg hc]]
      exact ih seen t ht

lemma removeDup_count_le (ss : List Suggestion) :
    ∀ (seen : List String) (t : String),
      (removeDuplicateSuggestions ss seen).countP
        (fun s => strToLower s.issue_type == t) ≤ 1 := by
  induction ss with
  | nil => intro seen t; simp [removeDuplicateSuggestions]
  | cons s rest ih =>
    intro seen t
    by_cases hc : (strToLower s.issue_type ≠ ""
        ∧ ¬ seen.contains (strToLower s.issue_type) = true)
    · rw [show removeDuplicateSuggestions (s :: rest) seen
          = s :: removeDuplicateSuggestions rest (strToLower s.issue_type :: seen) from by
        simp only [removeDuplicateSuggestions]
        rw [if_pos hc]]
      rw [List.countP_cons]
      by_cases hkt : (strToLower s.issue_type == t) = true
      · have heq : strToLower s.issue_type = t := by simpa using hkt
        have hz := removeDup_seen_zero rest (strToLower s.issue_type :: seen) t
          (by simp [List.contains_cons]; exact Or.inl heq.symm)
        simp [hz, hkt]
      · have hrec := ih (strToLower s.issue_type :: seen) t
        simp [hkt]
        omega
    · rw [show removeDuplicateSuggestions (s :: rest) seen
          = removeDuplicateSuggestions rest seen from by
        simp only [removeDuplicateSuggestions]
        rw [if_neg hc]]
      exact ih seen t

/-- C8 (amended): the active batch implementation (`generateSuggestions`,
aiSuggestions.js lines 135-158) applies no inter-call spacing and no
deduplication; it returns exactly one suggestion per extracted issue,
capped at 6 by `extractAllIssues`, so duplicate issue types yield
duplicate suggestions.  The deduplication loop of the alternative
implementation (lines 242-252, modelled by `removeDuplicateSuggestions`)
does guarantee at most one suggestion per lowercased issue-type; that
implementation also sleeps 500 ms between consecutive upstream calls
(real-time behaviour, not modelled). -/
theorem batch_suggestions_shape :
    (∀ (aiEnabled : Bool) (env : GatewayEnv) (violations : List Violation),
        (generateSuggestions aiEnabled env violations).length = min 6 violations.length)
    ∧ (∀ (ss : List Suggestion) (t : String),
        (removeDuplicateSuggestions ss []).countP
          (fun s => strToLower s.issue_type == t) ≤ 1) := by
  constructor
  · intro aiEnabled env violations
    simp [generateSuggestions, extractAllIssues]
  · intro ss t
    exact removeDup_count_le ss [] t
